import Mathlib

/-!
Verification of the scenario-execution and flow-metrics aggregation pipeline
of the CN-ns3-project repository.

The Python sources are shallowly embedded:
* `analyze_results.py` — flow parsing (`parse_flowmon_results`), derived
  metrics, report generation (`generate_performance_report`), CSV export
  (`export_csv_report`) and the analysis entry point (`main`).
* `run_scenarios.py` — the scenario runner (`run_scenario`), the scenario
  orchestrator (`run_all_scenarios`) and the orchestrator entry point
  (`main`).

Python float arithmetic is modelled with exact rationals (ℚ): every formula
under scrutiny is a guard plus a single division chain, so the guard and
formula structure are preserved exactly.  Python integer floor division
`//` with positive divisor is ℤ division (`Int.ediv`, rounding toward
negative infinity for positive divisors).  A Python expression that raises
(`ZeroDivisionError`) is modelled as `Option.none`.  Definitions whose name
matches a Python symbol are line-by-line translations of that symbol.
-/

/-- One `<Flow .../>` element of the FlowMonitor XML artifact: the raw
attributes read by `parse_flowmon_results` (`analyze_results.py` lines
36–53).  Missing attributes default to 0 at the XML layer, so each field
simply holds the value `int(...)` / `float(...)` produced there. -/
structure FlowEntry where
  flowId : ℤ
  txPackets : ℤ
  rxPackets : ℤ
  txBytes : ℤ
  rxBytes : ℤ
  delaySum : ℚ
  jitterSum : ℚ
deriving DecidableEq, Repr

/-- The per-flow dictionary stored in `self.flows[flow_id]`
(`analyze_results.py` lines 56–64). -/
structure FlowData where
  tx_packets : ℤ
  rx_packets : ℤ
  tx_bytes : ℤ
  rx_bytes : ℤ
  packet_loss_rate : ℚ
  avg_delay : ℚ
  avg_jitter : ℚ
deriving DecidableEq, Repr

/-- Derivation of one flow's metrics, `analyze_results.py` lines 40–64.
`1e9` is the nanosecond-to-second factor written `1000000000` here. -/
def mkFlowData (e : FlowEntry) : FlowData :=
  let packet_loss_rate : ℚ :=
    if e.txPackets > 0 then ((e.txPackets - e.rxPackets : ℤ) : ℚ) / (e.txPackets : ℚ) else 0
  let delay_sum : ℚ := e.delaySum / 1000000000
  let avg_delay : ℚ := if e.rxPackets > 0 then delay_sum / (e.rxPackets : ℚ) else 0
  let jitter_sum : ℚ := e.jitterSum / 1000000000
  let avg_jitter : ℚ :=
    if e.rxPackets > 1 then jitter_sum / ((e.rxPackets - 1 : ℤ) : ℚ) else 0
  { tx_packets := e.txPackets
    rx_packets := e.rxPackets
    tx_bytes := e.txBytes
    rx_bytes := e.rxBytes
    packet_loss_rate := packet_loss_rate
    avg_delay := avg_delay
    avg_jitter := avg_jitter }

/-- Python-dict insertion `self.flows[flow_id] = value`: an existing key
keeps its position and gets the new value, a new key is appended at the
end (CPython dict insertion-order semantics). -/
def insertFlow (flows : List (ℤ × FlowData)) (k : ℤ) (v : FlowData) : List (ℤ × FlowData) :=
  if k ∈ flows.map Prod.fst then
    flows.map (fun q => if q.1 = k then (k, v) else q)
  else
    flows ++ [(k, v)]

/-- The `for flow in root.findall('.//Flow')` loop of
`parse_flowmon_results` (`analyze_results.py` lines 36–64), carried out on
the dictionary accumulated so far. -/
def parse_loop (flows : List (ℤ × FlowData)) : List FlowEntry → List (ℤ × FlowData)
  | [] => flows
  | e :: es => parse_loop (insertFlow flows e.flowId (mkFlowData e)) es

/-- `parse_flowmon_results` (`analyze_results.py` lines 29–71): the
`self.flows` dictionary produced from the artifact's flow entries, as an
insertion-ordered association list. -/
def parse_flowmon_results (es : List FlowEntry) : List (ℤ × FlowData) :=
  parse_loop [] es

/-- Spec formula: `packet_loss_rate = (tx_packets - rx_packets) /
tx_packets` if `tx_packets > 0`, else `0` (spec §3). -/
def spec_packet_loss_rate (tx_packets rx_packets : ℤ) : ℚ :=
  if tx_packets > 0 then ((tx_packets : ℚ) - (rx_packets : ℚ)) / (tx_packets : ℚ) else 0

/-- Spec formula: `avg_delay = (delay_sum_ns / 1e9) / rx_packets` if
`rx_packets > 0`, else `0` (spec §3). -/
def spec_avg_delay (delay_sum_ns : ℚ) (rx_packets : ℤ) : ℚ :=
  if rx_packets > 0 then (delay_sum_ns / 1000000000) / (rx_packets : ℚ) else 0

/-- Spec formula: `avg_jitter = (jitter_sum_ns / 1e9) / (rx_packets - 1)`
if `rx_packets > 1`, else `0` (spec §3). -/
def spec_avg_jitter (jitter_sum_ns : ℚ) (rx_packets : ℤ) : ℚ :=
  if rx_packets > 1 then (jitter_sum_ns / 1000000000) / ((rx_packets : ℚ) - 1) else 0

/-- Spec formula: `throughput_mbps(duration_s) = rx_bytes * 8 /
(duration_s * 1e6)` if `duration_s > 0`, else `0` (spec §3). -/
def spec_throughput_mbps (rx_bytes : ℤ) (duration_s : ℚ) : ℚ :=
  if duration_s > 0 then (rx_bytes : ℚ) * 8 / (duration_s * 1000000) else 0

/-- `calculate_throughput` (`analyze_results.py` lines 73–77). -/
def calculate_throughput (flow_data : FlowData) (simulation_time : ℚ) : ℚ :=
  if simulation_time ≤ 0 then 0
  else ((flow_data.rx_bytes : ℚ) * 8) / (simulation_time * 1000000)

/-- `sum(flow['tx_packets'] for flow in self.flows.values())`
(`analyze_results.py` line 97). -/
def total_packets_sent (flows : List (ℤ × FlowData)) : ℤ :=
  (flows.map (fun q => q.2.tx_packets)).sum

/-- `analyze_results.py` line 98. -/
def total_packets_received (flows : List (ℤ × FlowData)) : ℤ :=
  (flows.map (fun q => q.2.rx_packets)).sum

/-- `analyze_results.py` line 99. -/
def total_bytes_sent (flows : List (ℤ × FlowData)) : ℤ :=
  (flows.map (fun q => q.2.tx_bytes)).sum

/-- `analyze_results.py` line 100. -/
def total_bytes_received (flows : List (ℤ × FlowData)) : ℤ :=
  (flows.map (fun q => q.2.rx_bytes)).sum

/-- `analyze_results.py` line 102: the overall loss rate, guarded by
`total_packets_sent > 0`. -/
def overall_packet_loss (flows : List (ℤ × FlowData)) : ℚ :=
  if total_packets_sent flows > 0 then
    ((total_packets_sent flows - total_packets_received flows : ℤ) : ℚ) /
      (total_packets_sent flows : ℚ)
  else 0

/-- `analyze_results.py` line 103:
`(total_bytes_received * 8) / (simulation_time * 1e6)` with NO guard on
`simulation_time`.  A zero denominator raises `ZeroDivisionError` in
Python, modelled as `none`. -/
def overall_throughput (flows : List (ℤ × FlowData)) (simulation_time : ℚ) : Option ℚ :=
  if simulation_time * 1000000 = 0 then none
  else some (((total_bytes_received flows : ℤ) : ℚ) * 8 / (simulation_time * 1000000))

/-- The `self.footballer_names` table (`analyze_results.py` lines 21–27),
keyed by consecutive indices 0..4, as the ordered list of its values. -/
def footballer_names : List String :=
  ["Messi", "Ronaldo", "Neymar", "Mbappe", "Haaland"]

/-- `self.footballer_names.get(i, "Player_" + str(i))`
(`analyze_results.py` lines 117 and 245). -/
def footballer_label (i : ℕ) : String :=
  footballer_names.getD i ("Player_" ++ toString i)

/-- Delivery-efficiency computation, `analyze_results.py` lines 128–131:
`expected_packets = (image_size + 1023) // 1024` (1024-byte packets are
hard-coded), then `rx_packets / expected_packets` if positive else 0. -/
def delivery_efficiency (image_size : ℤ) (rx_packets : ℤ) : ℚ :=
  let expected_packets : ℤ := (image_size + 1023) / 1024
  if expected_packets > 0 then (rx_packets : ℚ) / (expected_packets : ℚ) else 0

/-- Spec formula: `expected_packets = ceil(image_size_bytes /
packet_size_bytes)` (spec §3), as the ceiling of the exact quotient. -/
def spec_expected_packets (image_size_bytes packet_size_bytes : ℤ) : ℤ :=
  ⌈(image_size_bytes : ℚ) / (packet_size_bytes : ℚ)⌉

/-- Spec formula: `delivery_efficiency(expected_packets) = rx_packets /
expected_packets` if `expected_packets > 0`, else `0` (spec §3). -/
def spec_delivery_efficiency (rx_packets expected_packets : ℤ) : ℚ :=
  if expected_packets > 0 then (rx_packets : ℚ) / (expected_packets : ℚ) else 0

/-- One per-flow block of the text report, `analyze_results.py` lines
116–132: the values interpolated into the report lines for the flow at
enumeration position `i`. -/
structure ReportRow where
  flow_id : ℤ
  footballer : String
  tx_packets : ℤ
  rx_packets : ℤ
  tx_bytes : ℤ
  rx_bytes : ℤ
  packet_loss_rate : ℚ
  avg_delay : ℚ
  avg_jitter : ℚ
  throughput : ℚ
  delivery_eff : ℚ
deriving DecidableEq, Repr

/-- Builds one `ReportRow` for the flow at enumeration index `i`
(`analyze_results.py` lines 116–131). -/
def mkReportRow (simulation_time : ℚ) (image_size : ℤ) (i : ℕ)
    (fid : ℤ) (fd : FlowData) : ReportRow :=
  { flow_id := fid
    footballer := footballer_label i
    tx_packets := fd.tx_packets
    rx_packets := fd.rx_packets
    tx_bytes := fd.tx_bytes
    rx_bytes := fd.rx_bytes
    packet_loss_rate := fd.packet_loss_rate
    avg_delay := fd.avg_delay
    avg_jitter := fd.avg_jitter
    throughput := calculate_throughput fd simulation_time
    delivery_eff := delivery_efficiency image_size fd.rx_packets }

/-- The `for i, (flow_id, flow_data) in enumerate(self.flows.items())`
loop of `generate_performance_report`, starting at enumeration index
`i`. -/
def reportRowsFrom (simulation_time : ℚ) (image_size : ℤ) (i : ℕ) :
    List (ℤ × FlowData) → List ReportRow
  | [] => []
  | (fid, fd) :: rest =>
    mkReportRow simulation_time image_size i fid fd ::
      reportRowsFrom simulation_time image_size (i + 1) rest

/-- The per-flow section of the report (`analyze_results.py` lines
116–132), enumerated from 0. -/
def reportRows (simulation_time : ℚ) (image_size : ℤ)
    (flows : List (ℤ × FlowData)) : List ReportRow :=
  reportRowsFrom simulation_time image_size 0 flows

/-- All values interpolated into the text report built by
`generate_performance_report` (`analyze_results.py` lines 79–134).  The
report string is a fixed pure formatting of these fields, so two equal
`ReportData` values yield byte-identical report text. -/
structure ReportData where
  simulation_time : ℚ
  image_size : ℤ
  num_flows : ℕ
  total_packets_sent : ℤ
  total_packets_received : ℤ
  total_bytes_sent : ℤ
  total_bytes_received : ℤ
  overall_packet_loss : ℚ
  overall_throughput : Option ℚ
  rows : List ReportRow
deriving DecidableEq, Repr

/-- `generate_performance_report` (`analyze_results.py` lines 79–134),
as the data interpolated into the report. -/
def generate_performance_report (flows : List (ℤ × FlowData))
    (simulation_time : ℚ) (image_size : ℤ) : ReportData :=
  { simulation_time := simulation_time
    image_size := image_size
    num_flows := flows.length
    total_packets_sent := total_packets_sent flows
    total_packets_received := total_packets_received flows
    total_bytes_sent := total_bytes_sent flows
    total_bytes_received := total_bytes_received flows
    overall_packet_loss := overall_packet_loss flows
    overall_throughput := overall_throughput flows simulation_time
    rows := reportRows simulation_time image_size flows }

/-- One row of `simulation_results.csv` (`analyze_results.py` lines
248–260).  The CSV bytes are a fixed pure formatting of these fields. -/
structure CsvRow where
  Flow_ID : ℤ
  Footballer : String
  Packets_Sent : ℤ
  Packets_Received : ℤ
  Bytes_Sent : ℤ
  Bytes_Received : ℤ
  Packet_Loss_Rate_pct : ℚ
  Avg_Delay_ms : ℚ
  Avg_Jitter_ms : ℚ
  Throughput_Mbps : ℚ
  Success_Rate_pct : ℚ
deriving DecidableEq, Repr

/-- The `for i, (flow_id, flow_data) in enumerate(self.flows.items())`
loop of `export_csv_report` (`analyze_results.py` lines 244–260). -/
def csvRowsFrom (simulation_time : ℚ) (i : ℕ) :
    List (ℤ × FlowData) → List CsvRow
  | [] => []
  | (fid, fd) :: rest =>
    { Flow_ID := fid
      Footballer := footballer_label i
      Packets_Sent := fd.tx_packets
      Packets_Received := fd.rx_packets
      Bytes_Sent := fd.tx_bytes
      Bytes_Received := fd.rx_bytes
      Packet_Loss_Rate_pct := fd.packet_loss_rate * 100
      Avg_Delay_ms := fd.avg_delay * 1000
      Avg_Jitter_ms := fd.avg_jitter * 1000
      Throughput_Mbps := calculate_throughput fd simulation_time
      Success_Rate_pct := (1 - fd.packet_loss_rate) * 100 } ::
      csvRowsFrom simulation_time (i + 1) rest

/-- `export_csv_report` (`analyze_results.py` lines 237–267), as the list
of CSV rows written out. -/
def export_csv_report (flows : List (ℤ × FlowData)) (simulation_time : ℚ) :
    List CsvRow :=
  csvRowsFrom simulation_time 0 flows

/-- The analysis pipeline on one artifact: parse, then generate the text
report and the CSV report (`analyze_results.py` `main`, lines 293–311). -/
def analysis_pipeline (artifact : List FlowEntry) (simulation_time : ℚ)
    (image_size : ℤ) : ReportData × List CsvRow :=
  (generate_performance_report (parse_flowmon_results artifact) simulation_time image_size,
   export_csv_report (parse_flowmon_results artifact) simulation_time)

/-- Dict lookup `self.flows[k]` on the insertion-ordered association
list: the first (and, keys being distinct, only) binding of `k`. -/
def findFlow (k : ℤ) : List (ℤ × FlowData) → Option FlowData
  | [] => none
  | q :: rest => if q.1 = k then some q.2 else findFlow k rest

/-- Claim-side: the last artifact entry carrying flow id `k`, whose
counters a duplicate-tolerant parse is claimed to keep. -/
def lastEntryWith (k : ℤ) : List FlowEntry → Option FlowEntry
  | [] => none
  | e :: es =>
    match lastEntryWith k es with
    | some r => some r
    | none => if e.flowId = k then some e else none

/-- Claim-side: the distinct values of a list in order of first
occurrence, skipping those already `seen` — the order in which a Python
dict built by repeated assignment lists its keys. -/
def firstKeys (seen : List ℤ) : List ℤ → List ℤ
  | [] => []
  | a :: l => if a ∈ seen then firstKeys seen l else a :: firstKeys (seen ++ [a]) l

/-- Result of `subprocess.run(cmd, capture_output=True, text=True,
timeout=300)` (`run_scenarios.py` line 94): the process completed with an
exit code, or the 300-second bound expired (in which case `subprocess.run`
kills the child before raising `TimeoutExpired`), or some other exception
was raised. -/
inductive ProcResult where
  | completed (returncode : ℤ) (stdout stderr : String)
  | timedOut
  | raised (msg : String)
deriving DecidableEq, Repr

/-- Observable effects of one `run_scenario` call (`run_scenarios.py`
lines 36–150): the boolean it returns, which artifacts it wrote
(`simulation_output.txt` on success, `error_output.txt` on nonzero exit),
whether the produced artifacts were relocated, whether no child process
is left running, and the successive working directories in effect (last
element is the directory on return). -/
structure RunEffects where
  returnValue : Bool
  wrote_output_file : Bool
  wrote_error_file : Bool
  artifacts_moved : Bool
  process_terminated : Bool
  cwd_trace : List String
deriving DecidableEq, Repr

/-- `run_scenario` (`run_scenarios.py` lines 36–150).  `in_config` is the
line-38 membership test; `original_dir` is `os.getcwd()` at entry
(line 88); `parent_dir` is the NS-3 root reached by `os.chdir("..")`
(line 90).  The `finally` block (line 150) restores `original_dir` on
every path out of the `try`.  `process_terminated` is true on timeout
because `subprocess.run` kills the child before raising
`TimeoutExpired`. -/
def run_scenario (in_config : Bool) (original_dir parent_dir : String)
    (pr : ProcResult) : RunEffects :=
  if in_config then
    match pr with
    | ProcResult.completed rc _ _ =>
      if rc = 0 then
        { returnValue := true, wrote_output_file := true, wrote_error_file := false,
          artifacts_moved := true, process_terminated := true,
          cwd_trace := [original_dir, parent_dir, original_dir] }
      else
        { returnValue := false, wrote_output_file := false, wrote_error_file := true,
          artifacts_moved := false, process_terminated := true,
          cwd_trace := [original_dir, parent_dir, original_dir] }
    | ProcResult.timedOut =>
      { returnValue := false, wrote_output_file := false, wrote_error_file := false,
        artifacts_moved := false, process_terminated := true,
        cwd_trace := [original_dir, parent_dir, original_dir] }
    | ProcResult.raised _ =>
      { returnValue := false, wrote_output_file := false, wrote_error_file := false,
        artifacts_moved := false, process_terminated := true,
        cwd_trace := [original_dir, parent_dir, original_dir] }
  else
    { returnValue := false, wrote_output_file := false, wrote_error_file := false,
      artifacts_moved := false, process_terminated := true,
      cwd_trace := [original_dir] }

/-- `run_all_scenarios` (`run_scenarios.py` lines 191–243): each scenario
(given with the behavior of its external process) is run in order; the
first component is the `results` ledger in processing order, the second
the scenarios for which `analyze_scenario_results` was invoked (exactly
the successful ones, lines 215–223). -/
def run_all_scenarios (original_dir parent_dir : String) :
    List (String × ProcResult) → List (String × Bool) × List String
  | [] => ([], [])
  | (name, pr) :: rest =>
    let ok := (run_scenario true original_dir parent_dir pr).returnValue
    let r := run_all_scenarios original_dir parent_dir rest
    ((name, ok) :: r.1, (if ok then [name] else []) ++ r.2)

/-- `[s for s, success in results.items() if success]`
(`run_scenarios.py` line 327). -/
def successful_scenarios (ledger : List (String × Bool)) : List String :=
  (ledger.filter (fun x => x.2)).map Prod.fst

/-- The run-all path of `main` (`run_scenarios.py` lines 323–335): the
process exit code, and the scenario list written into the comparison
report (`compare_scenarios` is called only when at least one scenario
succeeded, so `none` means no comparison report is written). -/
def main_run_all (original_dir parent_dir : String)
    (scs : List (String × ProcResult)) : ℕ × Option (List String) :=
  let r := run_all_scenarios original_dir parent_dir scs
  let succ := successful_scenarios r.1
  (if r.1.any (fun x => x.2) then 0 else 1,
   if succ.isEmpty then none else some succ)

/-- Input situation of the analysis entry point (`analyze_results.py`
`main`, lines 287–295): the statistics file is missing
(`os.path.exists` fails, line 288), or `parse_flowmon_results` returned
`False` because parsing raised and the exception was caught (lines
69–71, 294), or parsing yielded the given entries. -/
inductive AnalyzeInput where
  | missing
  | unparsable
  | parsed (entries : List FlowEntry)
deriving DecidableEq, Repr

/-- How the analysis entry point terminates: a clean `return code` (with
the reports produced so far), or an unhandled exception propagating out
of `main` — the interpreter then prints a traceback and exits nonzero,
but through a fault, not a `return`. -/
inductive AnalyzeExit where
  | exited (code : ℕ) (reports : Option (ReportData × List CsvRow))
  | faulted
deriving DecidableEq, Repr

/-- The analysis entry point `main` (`analyze_results.py` lines 269–321).
Missing file: message and `return 1` (lines 288–291).  Unparsable file:
`return 1` (lines 294–295) — the parser catches every exception itself,
so no fault propagates.  Parsed file: `main` calls
`generate_performance_report`, whose line-103 overall-throughput
division raises `ZeroDivisionError` when `simulation_time` is 0; nothing
catches it, so `main` faults instead of returning.  When that division
succeeds (the only unguarded computation on this path), the reports are
generated and written and `main` returns 0. -/
def analyze_main (inp : AnalyzeInput) (simulation_time : ℚ) (image_size : ℤ) :
    AnalyzeExit :=
  match inp with
  | AnalyzeInput.missing => AnalyzeExit.exited 1 none
  | AnalyzeInput.unparsable => AnalyzeExit.exited 1 none
  | AnalyzeInput.parsed es =>
    match overall_throughput (parse_flowmon_results es) simulation_time with
    | none => AnalyzeExit.faulted
    | some _ =>
      AnalyzeExit.exited 0 (some (analysis_pipeline es simulation_time image_size))

/-- Sample flow entry, the round-trip example of spec §8. -/
def sampleEntry : FlowEntry :=
  { flowId := 1, txPackets := 100, rxPackets := 95, txBytes := 100000,
    rxBytes := 95000, delaySum := 2000000000, jitterSum := 940000000 }

/-- A second entry with the same flow id but different counters. -/
def sampleEntryBis : FlowEntry :=
  { flowId := 1, txPackets := 50, rxPackets := 40, txBytes := 5000,
    rxBytes := 4000, delaySum := 0, jitterSum := 0 }

/-- Six distinct trivial flows, enough to run past the five-name table. -/
def sixEntries : List FlowEntry :=
  [{ flowId := 0, txPackets := 10, rxPackets := 10, txBytes := 1000, rxBytes := 1000,
     delaySum := 0, jitterSum := 0 },
   { flowId := 1, txPackets := 10, rxPackets := 10, txBytes := 1000, rxBytes := 1000,
     delaySum := 0, jitterSum := 0 },
   { flowId := 2, txPackets := 10, rxPackets := 10, txBytes := 1000, rxBytes := 1000,
     delaySum := 0, jitterSum := 0 },
   { flowId := 3, txPackets := 10, rxPackets := 10, txBytes := 1000, rxBytes := 1000,
     delaySum := 0, jitterSum := 0 },
   { flowId := 4, txPackets := 10, rxPackets := 10, txBytes := 1000, rxBytes := 1000,
     delaySum := 0, jitterSum := 0 },
   { flowId := 5, txPackets := 10, rxPackets := 10, txBytes := 1000, rxBytes := 1000,
     delaySum := 0, jitterSum := 0 }]

/-- Floor division by 1024 after adding 1023 is exact ceiling division. -/
lemma int_ceilDiv_1024 (a : ℤ) : ⌈(a : ℚ) / 1024⌉ = (a + 1023) / 1024 := by
  rw [Int.ceil_eq_iff]
  have hq1 : 1024 * ((a + 1023) / 1024) - 1024 < a := by omega
  have hq2 : a ≤ 1024 * ((a + 1023) / 1024) := by omega
  qify at hq1 hq2
  constructor
  · rw [sub_lt_iff_lt_add, div_add_one (by norm_num : (1024 : ℚ) ≠ 0),
      lt_div_iff₀ (by norm_num : (0 : ℚ) < 1024)]
    linarith
  · rw [div_le_iff₀ (by norm_num : (0 : ℚ) < 1024)]
    linarith

/-- C1: for every parsed flow record the derived metrics equal the spec
formulas with their exact guards — `packet_loss_rate` guarded by
`tx_packets > 0`, `avg_delay` by `rx_packets > 0`, `avg_jitter` by
`rx_packets > 1`, each `0` otherwise. -/
theorem flow_metrics_match_spec_formulas (e : FlowEntry) :
    (mkFlowData e).packet_loss_rate = spec_packet_loss_rate e.txPackets e.rxPackets ∧
    (mkFlowData e).avg_delay = spec_avg_delay e.delaySum e.rxPackets ∧
    (mkFlowData e).avg_jitter = spec_avg_jitter e.jitterSum e.rxPackets := by
  refine ⟨?_, ?_, ?_⟩ <;>
    simp only [mkFlowData, spec_packet_loss_rate, spec_avg_delay, spec_avg_jitter] <;>
    split_ifs <;> push_cast <;> ring

/-- C2 counterexample: at `duration_s = 0` the overall-summary throughput
computation (`analyze_results.py` line 103) divides by zero and raises
(`none`) instead of producing the guarded formula's value `0`, so the
overall summary does NOT use the guarded throughput formula. -/
theorem overall_throughput_unguarded_counterexample :
    overall_throughput (parse_flowmon_results [sampleEntry]) 0 = none ∧
    spec_throughput_mbps (total_bytes_received (parse_flowmon_results [sampleEntry])) 0 = 0 ∧
    (none : Option ℚ) ≠ some 0 := by
  refine ⟨?_, ?_, by simp⟩
  · simp [overall_throughput]
  · simp [spec_throughput_mbps]

/-- C2 amended: the overall throughput is computed WITHOUT the
`duration_s > 0` guard; it equals the spec's guarded formula whenever
`duration_s > 0`, and at `duration_s = 0` the computation raises a
division-by-zero error instead of yielding `0`. -/
theorem overall_throughput_amended (flows : List (ℤ × FlowData)) (duration_s : ℚ) :
    (0 < duration_s →
      overall_throughput flows duration_s =
        some (spec_throughput_mbps (total_bytes_received flows) duration_s)) ∧
    (duration_s = 0 → overall_throughput flows duration_s = none) := by
  constructor
  · intro h
    have h6 : (0 : ℚ) < duration_s * 1000000 := by positivity
    rw [overall_throughput, if_neg h6.ne', spec_throughput_mbps, if_pos h]
  · intro h
    subst h
    simp [overall_throughput]

/-- Witness for `overall_throughput_amended` at a concrete flow table and
`duration_s = 10`. -/
theorem overall_throughput_amended_witness :
    overall_throughput (parse_flowmon_results [sampleEntry]) 10 =
      some (spec_throughput_mbps (total_bytes_received (parse_flowmon_results [sampleEntry])) 10) :=
  (overall_throughput_amended (parse_flowmon_results [sampleEntry]) 10).1 (by norm_num)

/-- C8: delivery efficiency equals `rx_packets / expected_packets` when
`expected_packets > 0` and `0` otherwise, with
`expected_packets = ceil(image_size / 1024)` — the code hard-codes the
default 1024-byte packet size and computes the ceiling as
`(image_size + 1023) // 1024`. -/
theorem delivery_efficiency_matches_spec (image_size rx_packets : ℤ) :
    delivery_efficiency image_size rx_packets =
      spec_delivery_efficiency rx_packets (spec_expected_packets image_size 1024) ∧
    spec_expected_packets image_size 1024 = (image_size + 1023) / 1024 := by
  have h : spec_expected_packets image_size 1024 = (image_size + 1023) / 1024 := by
    unfold spec_expected_packets
    norm_num
    exact int_ceilDiv_1024 image_size
  refine ⟨?_, h⟩
  unfold delivery_efficiency spec_delivery_efficiency
  rw [h]

/-- C3 counterexample: the 6th flow (index 5) is past the five-entry name
table and is labeled with the code's generated placeholder "Player_5",
not the claimed placeholder "Entity_5". -/
theorem entity_label_placeholder_counterexample :
    ((reportRows 10 50000 (parse_flowmon_results sixEntries)).get? 5).map ReportRow.footballer =
      some "Player_5" ∧
    ("Player_5" : String) ≠ "Entity_5" := by
  constructor
  · rfl
  · decide

/-- The enumeration loop labels the row at position `K` with the label of
index `i + K`, independently of the flow id stored there. -/
lemma reportRowsFrom_get_footballer (t : ℚ) (s : ℤ) (flows : List (ℤ × FlowData)) :
    ∀ (i K : ℕ), K < flows.length →
      ((reportRowsFrom t s i flows).get? K).map ReportRow.footballer =
        some (footballer_label (i + K)) := by
  induction flows with
  | nil => intro i K h; simp at h
  | cons q rest ih =>
    intro i K h
    obtain ⟨fid, fd⟩ := q
    cases K with
    | zero => simp [reportRowsFrom, mkReportRow]
    | succ K =>
      have hK : K < rest.length := by simpa using Nat.lt_of_succ_lt_succ h
      have hrec := ih (i + 1) K hK
      have harg : i + 1 + K = i + (K + 1) := by omega
      rw [harg] at hrec
      simpa [reportRowsFrom] using hrec

/-- C3 amended: the Kth flow in artifact order is labeled with the Kth
configured entity name regardless of its flow id, and past the end of the
entity-name table the generated placeholder is "Player_<index>" (the
claim's "Entity_<index>" literal does not occur in the code). -/
theorem positional_entity_labels_amended (t : ℚ) (s : ℤ)
    (flows : List (ℤ × FlowData)) (K : ℕ) (h : K < flows.length) :
    ((reportRows t s flows).get? K).map ReportRow.footballer = some (footballer_label K) ∧
    (∀ j (hj : j < footballer_names.length), footballer_label j = footballer_names.get ⟨j, hj⟩) ∧
    (∀ j, footballer_names.length ≤ j → footballer_label j = "Player_" ++ toString j) := by
  refine ⟨?_, ?_, ?_⟩
  · simpa [reportRows] using reportRowsFrom_get_footballer t s flows 0 K h
  · intro j hj
    simp only [footballer_names, List.length_cons, List.length_nil] at hj
    interval_cases j <;> rfl
  · intro j hj
    unfold footballer_label
    rw [List.getD_eq_default]
    exact hj

/-- Witness for `positional_entity_labels_amended` at position 2 of a
six-flow table. -/
theorem positional_entity_labels_witness :
    ((reportRows 10 50000 (parse_flowmon_results sixEntries)).get? 2).map ReportRow.footballer =
      some (footballer_label 2) :=
  (positional_entity_labels_amended 10 50000 (parse_flowmon_results sixEntries) 2 (by decide)).1

/-- C4 counterexample: a timed-out run and a failed run (nonzero exit
code) record the SAME outcome — `run_scenario` returns `False` in both
cases (`run_scenarios.py` lines 143–145 and 125–141) — so timeout is not
recorded as an outcome distinct from failure. -/
theorem timeout_not_distinct_counterexample :
    (run_scenario true "home" "ns3" ProcResult.timedOut).returnValue =
      (run_scenario true "home" "ns3" (ProcResult.completed 1 "" "")).returnValue ∧
    (run_scenario true "home" "ns3" ProcResult.timedOut).returnValue = false :=
  ⟨rfl, rfl⟩

/-- C4 amended: when the external process exceeds the 300-second bound it
is terminated (the bounded wait kills it) and the runner returns the
failure value `False` — the same recorded outcome as a process failure —
with the timeout branch distinguishable only by its diagnostics: no error
artifact, no output artifact, no relocation; the working directory is
restored. -/
theorem timeout_branch_amended (o p : String) :
    run_scenario true o p ProcResult.timedOut =
      { returnValue := false, wrote_output_file := false, wrote_error_file := false,
        artifacts_moved := false, process_terminated := true, cwd_trace := [o, p, o] } :=
  rfl

/-- C7: on every exit path of the runner — early validation return,
success, process failure, timeout, or exception — the working directory
in effect on return is the one captured at entry. -/
theorem cwd_restored_on_all_paths (in_config : Bool) (o p : String) (pr : ProcResult) :
    (run_scenario in_config o p pr).cwd_trace.getLast? = some o := by
  cases in_config <;> cases pr <;> simp only [run_scenario] <;> split_ifs <;> rfl

/-- The ledger records every scenario, in processing order, whatever the
outcomes of the individual runs. -/
lemma run_all_ledger_names (o p : String) (scs : List (String × ProcResult)) :
    (run_all_scenarios o p scs).1.map Prod.fst = scs.map Prod.fst := by
  induction scs with
  | nil => rfl
  | cons q rest ih =>
    obtain ⟨name, pr⟩ := q
    simp [run_all_scenarios, ih]

/-- Analysis is invoked for exactly the scenarios whose run succeeded. -/
lemma run_all_analyzed_eq_successful (o p : String) (scs : List (String × ProcResult)) :
    (run_all_scenarios o p scs).2 = successful_scenarios (run_all_scenarios o p scs).1 := by
  induction scs with
  | nil => rfl
  | cons q rest ih =>
    obtain ⟨name, pr⟩ := q
    by_cases hok : (run_scenario true o p pr).returnValue
    · simp [run_all_scenarios, successful_scenarios, List.filter_cons, hok, ih]
    · simp [run_all_scenarios, successful_scenarios, List.filter_cons, hok, ih]

/-- C5: every scenario in the collection is run and recorded regardless
of earlier failures, analysis is invoked for exactly the successful
ones, the comparison report (produced whenever some scenario succeeded)
lists exactly the successful scenarios, and in particular for the
sequence A-fails-then-B-succeeds, B is analyzed and the comparison lists
only B. -/
theorem scenario_isolation (o p : String) (scs : List (String × ProcResult)) :
    (run_all_scenarios o p scs).1.map Prod.fst = scs.map Prod.fst ∧
    (run_all_scenarios o p scs).2 = successful_scenarios (run_all_scenarios o p scs).1 ∧
    (successful_scenarios (run_all_scenarios o p scs).1 ≠ [] →
      (main_run_all o p scs).2 = some (successful_scenarios (run_all_scenarios o p scs).1)) ∧
    (run_all_scenarios o p
      [("A", ProcResult.completed 1 "" ""), ("B", ProcResult.completed 0 "" "")]).2 = ["B"] ∧
    (main_run_all o p
      [("A", ProcResult.completed 1 "" ""), ("B", ProcResult.completed 0 "" "")]).2 = some ["B"] := by
  refine ⟨run_all_ledger_names o p scs, run_all_analyzed_eq_successful o p scs, ?_, rfl, rfl⟩
  intro h
  have hne : (successful_scenarios (run_all_scenarios o p scs).1).isEmpty = false := by
    simpa [List.isEmpty_iff] using h
  simp [main_run_all, hne]

/-- Witness for `scenario_isolation`: the comparison report of the
concrete A-fails-then-B-succeeds batch. -/
theorem scenario_isolation_witness :
    (main_run_all "home" "ns3"
      [("A", ProcResult.completed 1 "" ""), ("B", ProcResult.completed 0 "" "")]).2 =
      some (successful_scenarios (run_all_scenarios "home" "ns3"
        [("A", ProcResult.completed 1 "" ""), ("B", ProcResult.completed 0 "" "")]).1) :=
  (scenario_isolation "home" "ns3"
    [("A", ProcResult.completed 1 "" ""), ("B", ProcResult.completed 0 "" "")]).2.2.1 (by decide)

/-- C6: the orchestrator exits 0 exactly when at least one ledger entry
records success and 1 exactly when none does; the analysis entry point
returns exit code 1 — a clean return, no fault propagates — on a missing
artifact and on an unparsable artifact, and exits 0 whenever parse AND
report generation succeed (`simulation_time ≠ 0`, the sole unguarded
computation on the report path); at `simulation_time = 0` the report is
not successfully produced — `main` faults on the line-103 division. -/
theorem exit_codes (o p : String) (scs : List (String × ProcResult)) (t : ℚ) (s : ℤ)
    (es : List FlowEntry) :
    ((main_run_all o p scs).1 = 0 ↔ ∃ x ∈ (run_all_scenarios o p scs).1, x.2 = true) ∧
    ((main_run_all o p scs).1 = 1 ↔ ∀ x ∈ (run_all_scenarios o p scs).1, x.2 = false) ∧
    analyze_main AnalyzeInput.missing t s = AnalyzeExit.exited 1 none ∧
    analyze_main AnalyzeInput.unparsable t s = AnalyzeExit.exited 1 none ∧
    (t ≠ 0 → analyze_main (AnalyzeInput.parsed es) t s =
      AnalyzeExit.exited 0 (some (analysis_pipeline es t s))) ∧
    (t = 0 → analyze_main (AnalyzeInput.parsed es) t s = AnalyzeExit.faulted) := by
  have hmain : (main_run_all o p scs).1 =
      if (run_all_scenarios o p scs).1.any (fun x => x.2) then 0 else 1 := rfl
  refine ⟨?_, ?_, rfl, rfl, ?_, ?_⟩
  case refine_3 =>
    intro ht
    have h6 : t * 1000000 ≠ 0 := mul_ne_zero ht (by norm_num)
    simp only [analyze_main, overall_throughput, if_neg h6]
  case refine_4 =>
    intro ht
    subst ht
    simp [analyze_main, overall_throughput]
  · rw [hmain]
    by_cases hb : (run_all_scenarios o p scs).1.any (fun x => x.2) = true
    · rw [if_pos hb]
      constructor
      · intro _
        simpa using List.any_eq_true.mp hb
      · intro _
        rfl
    · rw [if_neg hb]
      constructor
      · intro h
        exact absurd h (by norm_num)
      · intro hex
        exact absurd (List.any_eq_true.mpr (by simpa using hex)) hb
  · rw [hmain]
    by_cases hb : (run_all_scenarios o p scs).1.any (fun x => x.2) = true
    · rw [if_pos hb]
      obtain ⟨x, hx, hx2⟩ := List.any_eq_true.mp hb
      constructor
      · intro h
        exact absurd h (by norm_num)
      · intro hall
        exact absurd hx2 (by simp [hall x hx])
    · rw [if_neg hb]
      rw [Bool.not_eq_true, List.any_eq_false] at hb
      constructor
      · intro _ x hx
        simpa using hb x hx
      · intro _
        rfl

/-- Witness for `exit_codes`: concrete missing-artifact exit, a concrete
successful analysis at `simulation_time = 10`, and a concrete one-success
batch exiting 0. -/
theorem exit_codes_witness :
    analyze_main AnalyzeInput.missing 10 50000 = AnalyzeExit.exited 1 none ∧
    analyze_main (AnalyzeInput.parsed [sampleEntry]) 10 50000 =
      AnalyzeExit.exited 0 (some (analysis_pipeline [sampleEntry] 10 50000)) ∧
    (main_run_all "home" "ns3" [("B", ProcResult.completed 0 "" "")]).1 = 0 := by
  have h := exit_codes "home" "ns3" [("B", ProcResult.completed 0 "" "")] 10 50000 [sampleEntry]
  exact ⟨h.2.2.1, h.2.2.2.2.1 (by norm_num), h.1.mpr (by decide)⟩

/-- C9: the text-report data and the CSV rows are functions of the parsed
flow table and the run parameters alone — two artifacts with equal parse
results (in particular, the same unchanged artifact parsed twice) yield
equal report data, hence byte-identical serialized reports, the
serializers being fixed pure formattings of these values. -/
theorem analysis_pipeline_deterministic (a1 a2 : List FlowEntry) (t : ℚ) (s : ℤ)
    (h : parse_flowmon_results a1 = parse_flowmon_results a2) :
    analysis_pipeline a1 t s = analysis_pipeline a2 t s := by
  simp [analysis_pipeline, h]

/-- Witness for `analysis_pipeline_deterministic`: re-running on the same
concrete artifact. -/
theorem analysis_pipeline_deterministic_witness :
    analysis_pipeline [sampleEntry] 10 50000 = analysis_pipeline [sampleEntry] 10 50000 :=
  analysis_pipeline_deterministic [sampleEntry] [sampleEntry] 10 50000 rfl

/-- Inserting key `k` leaves the key sequence unchanged when `k` is
already present and appends `k` otherwise. -/
lemma map_fst_insertFlow (flows : List (ℤ × FlowData)) (k : ℤ) (v : FlowData) :
    (insertFlow flows k v).map Prod.fst =
      if k ∈ flows.map Prod.fst then flows.map Prod.fst
      else flows.map Prod.fst ++ [k] := by
  unfold insertFlow
  split_ifs with hmem
  · rw [List.map_map]
    apply List.map_congr_left
    intro q _
    by_cases hq : q.1 = k
    · simp [hq]
    · simp [hq]
  · simp

/-- Looking up a key that maps to nothing skips an appended binding of a
different key. -/
lemma findFlow_append_single (flows : List (ℤ × FlowData)) (k k' : ℤ) (v : FlowData)
    (hne : k' ≠ k) :
    findFlow k' (flows ++ [(k, v)]) = findFlow k' flows := by
  induction flows with
  | nil =>
    have hkk : ¬ (k = k') := fun h => hne h.symm
    simp [findFlow, hkk]
  | cons q rest ih =>
    by_cases hq : q.1 = k'
    · simp [findFlow, hq]
    · simp [findFlow, hq, ih]

/-- An absent key looks up to nothing. -/
lemma findFlow_eq_none_of_not_mem (flows : List (ℤ × FlowData)) (k : ℤ)
    (h : k ∉ flows.map Prod.fst) :
    findFlow k flows = none := by
  induction flows with
  | nil => rfl
  | cons q rest ih =>
    simp only [List.map_cons, List.mem_cons, not_or] at h
    have hq : ¬ (q.1 = k) := fun hq => h.1 hq.symm
    simp [findFlow, hq, ih h.2]

/-- In-place update of every binding of `k` makes `k` look up to the new
value, provided `k` is bound at all. -/
lemma findFlow_map_update_self (flows : List (ℤ × FlowData)) (k : ℤ) (v : FlowData)
    (hmem : k ∈ flows.map Prod.fst) :
    findFlow k (flows.map (fun q => if q.1 = k then (k, v) else q)) = some v := by
  induction flows with
  | nil => simp at hmem
  | cons q rest ih =>
    by_cases hq : q.1 = k
    · simp [findFlow, hq]
    · have hmem' : k ∈ rest.map Prod.fst := by
        simp only [List.map_cons, List.mem_cons] at hmem
        exact hmem.resolve_left fun h => hq h.symm
      simp [findFlow, hq, ih hmem']

/-- In-place update of the bindings of `k` does not change the lookup of
any other key. -/
lemma findFlow_map_update_ne (flows : List (ℤ × FlowData)) (k k' : ℤ) (v : FlowData)
    (hne : k' ≠ k) :
    findFlow k' (flows.map (fun q => if q.1 = k then (k, v) else q)) = findFlow k' flows := by
  induction flows with
  | nil => rfl
  | cons q rest ih =>
    by_cases hq : q.1 = k
    · have : ¬ (k = k') := fun h => hne h.symm
      simp [findFlow, hq, this, ih]
    · simp [findFlow, hq, ih]

/-- Dict assignment `flows[k] = v`: `k` now maps to `v`. -/
lemma findFlow_insertFlow_self (flows : List (ℤ × FlowData)) (k : ℤ) (v : FlowData) :
    findFlow k (insertFlow flows k v) = some v := by
  unfold insertFlow
  split_ifs with hmem
  · exact findFlow_map_update_self flows k v hmem
  · induction flows with
    | nil => simp [findFlow]
    | cons q rest ih =>
      simp only [List.map_cons, List.mem_cons, not_or] at hmem
      have hq : ¬ (q.1 = k) := fun hq => hmem.1 hq.symm
      simp [findFlow, hq, ih hmem.2]

/-- Dict assignment `flows[k] = v`: every other key is unaffected. -/
lemma findFlow_insertFlow_ne (flows : List (ℤ × FlowData)) (k k' : ℤ) (v : FlowData)
    (hne : k' ≠ k) :
    findFlow k' (insertFlow flows k v) = findFlow k' flows := by
  unfold insertFlow
  split_ifs with hmem
  · exact findFlow_map_update_ne flows k k' v hne
  · exact findFlow_append_single flows k k' v hne

/-- After the parse loop, a key maps to the data of the LAST artifact
entry bearing it; keys untouched by the entries keep their prior
binding. -/
lemma findFlow_parse_loop (es : List FlowEntry) :
    ∀ (flows : List (ℤ × FlowData)) (k : ℤ),
      findFlow k (parse_loop flows es) =
        match lastEntryWith k es with
        | some r => some (mkFlowData r)
        | none => findFlow k flows := by
  induction es with
  | nil =>
    intro flows k
    simp [parse_loop, lastEntryWith]
  | cons e rest ih =>
    intro flows k
    rw [parse_loop, ih]
    cases hlast : lastEntryWith k rest with
    | some r =>
      simp [lastEntryWith, hlast]
    | none =>
      by_cases hk : e.flowId = k
      · simp only [lastEntryWith, hlast, if_pos hk]
        rw [← hk]
        exact findFlow_insertFlow_self flows e.flowId (mkFlowData e)
      · simp only [lastEntryWith, hlast, if_neg hk]
        exact findFlow_insertFlow_ne flows e.flowId k (mkFlowData e) fun h => hk h.symm

/-- After the parse loop, the key sequence is the prior keys followed by
the new ids in order of first occurrence. -/
lemma map_fst_parse_loop (es : List FlowEntry) :
    ∀ flows : List (ℤ × FlowData),
      (parse_loop flows es).map Prod.fst =
        flows.map Prod.fst ++ firstKeys (flows.map Prod.fst) (es.map FlowEntry.flowId) := by
  induction es with
  | nil =>
    intro flows
    simp [parse_loop, firstKeys]
  | cons e rest ih =>
    intro flows
    rw [parse_loop, ih, map_fst_insertFlow]
    by_cases hmem : e.flowId ∈ flows.map Prod.fst
    · rw [if_pos hmem]
      simp only [List.map_cons, firstKeys, if_pos hmem]
    · rw [if_neg hmem]
      simp only [List.map_cons, firstKeys, if_neg hmem]
      simp [List.append_assoc]

/-- Membership in the first-occurrence key list. -/
lemma mem_firstKeys (x : ℤ) :
    ∀ (l seen : List ℤ), x ∈ firstKeys seen l ↔ x ∈ l ∧ x ∉ seen := by
  intro l
  induction l with
  | nil =>
    intro seen
    simp [firstKeys]
  | cons a rest ih =>
    intro seen
    by_cases hx : x = a
    · subst hx
      by_cases ha : x ∈ seen
      · simp only [firstKeys, if_pos ha, ih]
        simp [ha]
      · simp only [firstKeys, if_neg ha]
        simp [ha]
    · by_cases ha : a ∈ seen
      · simp only [firstKeys, if_pos ha, ih]
        simp [hx]
      · simp only [firstKeys, if_neg ha, List.mem_cons, ih]
        simp [hx]

/-- The first-occurrence key list has no duplicates. -/
lemma nodup_firstKeys :
    ∀ (l seen : List ℤ), (firstKeys seen l).Nodup := by
  intro l
  induction l with
  | nil =>
    intro seen
    simp [firstKeys]
  | cons a rest ih =>
    intro seen
    simp only [firstKeys]
    split_ifs with ha
    · exact ih seen
    · refine List.nodup_cons.mpr ⟨?_, ih (seen ++ [a])⟩
      intro hmem
      exact ((mem_firstKeys a rest (seen ++ [a])).mp hmem).2 (by simp)

/-- C10: parsing an artifact with duplicated flow ids succeeds and keeps
exactly one record per distinct id — the keys are the distinct ids in
order of first occurrence (so each record's position is its id's first
occurrence), each id maps to the data of the last entry bearing it, and
the record count is the distinct-id count, not the entry count. -/
theorem duplicate_flow_ids_last_wins (es : List FlowEntry) (k x : ℤ) :
    (parse_flowmon_results es).map Prod.fst = firstKeys [] (es.map FlowEntry.flowId) ∧
    findFlow k (parse_flowmon_results es) = (lastEntryWith k es).map mkFlowData ∧
    ((parse_flowmon_results es).map Prod.fst).Nodup ∧
    (x ∈ (parse_flowmon_results es).map Prod.fst ↔ x ∈ es.map FlowEntry.flowId) ∧
    (parse_flowmon_results es).length = (firstKeys [] (es.map FlowEntry.flowId)).length := by
  have h1 : (parse_flowmon_results es).map Prod.fst =
      firstKeys [] (es.map FlowEntry.flowId) := by
    simpa [parse_flowmon_results] using map_fst_parse_loop es []
  have h2 : findFlow k (parse_flowmon_results es) = (lastEntryWith k es).map mkFlowData := by
    have h := findFlow_parse_loop es [] k
    rw [parse_flowmon_results]
    cases hlast : lastEntryWith k es with
    | some r => rw [h, hlast]; rfl
    | none => rw [h, hlast]; rfl
  refine ⟨h1, h2, ?_, ?_, ?_⟩
  · rw [h1]
    exact nodup_firstKeys _ []
  · rw [h1, mem_firstKeys]
    simp
  · rw [← h1, List.length_map]

/-- Witness for `duplicate_flow_ids_last_wins`: an artifact repeating
flow id 1; the single record for id 1 carries the second entry's
counters. -/
theorem duplicate_flow_ids_last_wins_witness :
    findFlow 1 (parse_flowmon_results [sampleEntry, sampleEntryBis]) =
      (lastEntryWith 1 [sampleEntry, sampleEntryBis]).map mkFlowData :=
  (duplicate_flow_ids_last_wins [sampleEntry, sampleEntryBis] 1 0).2.1
